import Mathlib

/-!
Shallow embedding of the esports-league CRUD application (src/app/cli.py,
src/app/gui.py, src/app/db.py) and proofs about its claims.

Conventions of the embedding:
* Python strings are Lean `String`s; ASCII behaviour of `str.lower()` /
  `str.strip()` is modelled (the application's patterns and inputs are ASCII).
* `None`-able Python values are `Option`s; a function that can raise is
  embedded with `Except String` carrying the exception message.
* A SQL statement issued through `app.db.execute` / `execute_returning` is
  reified as a `Stmt` value; an outcome that carries no `Stmt` issues no
  store call.
-/

/-- Characters stripped by Python `str.strip()` (ASCII whitespace). -/
def isPySpace (c : Char) : Bool :=
  c = ' ' || c = '\t' || c = '\n' || c = '\r' || c = '\x0b' || c = '\x0c'

/-- Model of Python `str.strip()`: drop ASCII whitespace at both ends. -/
def pyStrip (s : String) : String :=
  ⟨((s.data.dropWhile isPySpace).reverse.dropWhile isPySpace).reverse⟩

/-- Model of Python `str.lower()` (ASCII case folding, which covers every
pattern the application matches on). -/
def pyLower (s : String) : String :=
  ⟨s.data.map Char.toLower⟩

/-- Helper for `pyContains`: does `needle` occur as a contiguous sublist? -/
def listContainsSub (needle : List Char) : List Char → Bool
  | [] => needle.isEmpty
  | c :: rest => needle.isPrefixOf (c :: rest) || listContainsSub needle rest

/-- Model of Python `needle in hay` on strings. -/
def pyContains (hay needle : String) : Bool :=
  listContainsSub needle.data hay.data

/-- Characters before the first newline. -/
def listFirstLine : List Char → List Char
  | [] => []
  | c :: rest => if c = '\n' then [] else c :: listFirstLine rest

/-- Model of Python `msg.split("\n")[0]`: the first line of a message. -/
def pyFirstLine (msg : String) : String :=
  ⟨listFirstLine msg.data⟩

/-- Split a character list on every occurrence of a separator character
(model of Python `str.split(sep)` for a one-character separator). -/
def splitOnChar (sep : Char) : List Char → List (List Char)
  | [] => [[]]
  | c :: rest =>
    let r := splitOnChar sep rest
    if c = sep then [] :: r
    else
      match r with
      | h :: t => (c :: h) :: t
      | [] => [[c]]

/-- Numeric value of a decimal digit character. -/
def digitVal (c : Char) : Nat := c.toNat - '0'.toNat

/-- Digit-run parser for Python `int()`: digits with single underscores
allowed between digits (Python 3 grammar), no leading/trailing underscore. -/
def pyDigitsCore : Nat → List Char → Option Nat
  | acc, [] => some acc
  | acc, '_' :: rest =>
    match rest with
    | c :: rest2 => if c.isDigit then pyDigitsCore (acc * 10 + digitVal c) rest2 else none
    | [] => none
  | acc, c :: rest => if c.isDigit then pyDigitsCore (acc * 10 + digitVal c) rest else none

/-- Parse a non-empty digit run (first character must be a digit). -/
def pyParseDigits (l : List Char) : Option Nat :=
  match l with
  | [] => none
  | c :: _ => if c.isDigit then pyDigitsCore 0 l else none

/-- Model of Python `int(s)` on strings: surrounding whitespace stripped,
optional sign, decimal digits; `none` models the `ValueError`. -/
def pyInt? (s : String) : Option Int :=
  match (pyStrip s).data with
  | '+' :: rest => (pyParseDigits rest).map (fun n => (n : Int))
  | '-' :: rest => (pyParseDigits rest).map (fun n => -(n : Int))
  | l => (pyParseDigits l).map (fun n => (n : Int))

/-- Helper for `pySplitBefore`: everything before the first occurrence of
`sep`, or the whole list when `sep` does not occur. -/
def listBeforeSep (sep : List Char) : List Char → List Char
  | [] => []
  | c :: rest => if sep.isPrefixOf (c :: rest) then [] else c :: listBeforeSep sep rest

/-- Model of Python `s.split(sep, 1)[0]` for a non-empty separator. -/
def pySplitBefore (sep s : String) : String :=
  ⟨listBeforeSep sep.data s.data⟩

/-- Digit-list to number (used by the decimal and date models). -/
def decNat (l : List Char) : Option Nat :=
  if l ≠ [] ∧ l.all Char.isDigit then
    some (l.foldl (fun a c => a * 10 + digitVal c) 0)
  else none

/-- Split a character list at the first dot; `none` when there is no dot. -/
def splitDot : List Char → List Char × Option (List Char)
  | [] => ([], none)
  | '.' :: rest => ([], some rest)
  | c :: rest =>
    let r := splitDot rest
    (c :: r.1, r.2)

/-- Model of Python `Decimal(s)` restricted to the plain forms the
application exchanges (optional sign, digits, optional fractional part; the
exotic `Decimal` inputs such as exponents, `NaN` or `Infinity` are outside
the data this program produces). The result `(m, e)` denotes `m / 10^e`. -/
def pyDec? (s : String) : Option (Int × Nat) :=
  let t := (pyStrip s).data
  let signBody : Int × List Char :=
    match t with
    | '+' :: r => (1, r)
    | '-' :: r => (-1, r)
    | r => (1, r)
  let body := signBody.2
  match splitDot body with
  | (ip, none) => (decNat ip).map (fun v => (signBody.1 * (v : Int), 0))
  | (ip, some fp) =>
    if ip = [] ∧ fp = [] then none
    else if fp.contains '.' then none
    else
      match (if ip = [] then some 0 else decNat ip), (if fp = [] then some 0 else decNat fp) with
      | some iv, some fv =>
        some (signBody.1 * ((iv * 10 ^ fp.length + fv : Nat) : Int), fp.length)
      | _, _ => none

/-- Number of days in a month of the (proleptic Gregorian) calendar used by
`datetime.date`. -/
def daysInMonth (y m : Nat) : Nat :=
  if m = 2 then
    if y % 4 = 0 ∧ (y % 100 ≠ 0 ∨ y % 400 = 0) then 29 else 28
  else if m = 4 ∨ m = 6 ∨ m = 9 ∨ m = 11 then 30
  else 31

/-- Model of `datetime.strptime(s, "%Y-%m-%d").date()`: three dash-separated
digit groups (year up to 4 digits, month/day up to 2) forming a valid date. -/
def pyDate? (s : String) : Option (Nat × Nat × Nat) :=
  match splitOnChar '-' s.data with
  | [ys, ms, ds] =>
    match decNat ys, decNat ms, decNat ds with
    | some y, some m, some d =>
      if ys.length ≤ 4 ∧ ms.length ≤ 2 ∧ ds.length ≤ 2 ∧
          1 ≤ y ∧ y ≤ 9999 ∧ 1 ≤ m ∧ m ≤ 12 ∧ 1 ≤ d ∧ d ≤ daysInMonth y m then
        some (y, m, d)
      else none
    | _, _, _ => none
  | _ => none

/-- Zero-pad to two digits. -/
def pad2 (n : Nat) : String := if n < 10 then "0" ++ toString n else toString n

/-- Zero-pad to four digits. -/
def pad4 (n : Nat) : String :=
  if n < 10 then "000" ++ toString n
  else if n < 100 then "00" ++ toString n
  else if n < 1000 then "0" ++ toString n
  else toString n

/-- Model of `date.isoformat()`. -/
def isoOfDate (y m d : Nat) : String := pad4 y ++ "-" ++ pad2 m ++ "-" ++ pad2 d

/-- A SQL parameter value as adapted by the driver. -/
inductive Value where
  | vstr (s : String)
  | vint (n : Int)
  | vdec (m : Int) (e : Nat)
  | vdate (iso : String)
  | vbool (b : Bool)
  | vnull
deriving DecidableEq, Repr

/-- Python `opt` of an optional string sent as a SQL parameter. -/
def optStr : Option String → Value
  | some s => Value.vstr s
  | none => Value.vnull

/-- Python optional int sent as a SQL parameter. -/
def optInt : Option Int → Value
  | some n => Value.vint n
  | none => Value.vnull

/-- Python optional date sent as a SQL parameter. -/
def optDate : Option String → Value
  | some s => Value.vdate s
  | none => Value.vnull

/-- Python `s or None` on a string field: empty string becomes SQL NULL. -/
def pyOrNone (s : String) : Value :=
  if s = "" then Value.vnull else Value.vstr s

/-- Python `d or Decimal("0")` on an optional decimal: `None` and zero are
falsy and become `Decimal("0")`. -/
def pyDecOr0 : Option (Int × Nat) → Int × Nat
  | none => (0, 0)
  | some d => if d.1 = 0 then (0, 0) else d

/-- Python `n or default` on an optional int: `None` and `0` are falsy. -/
def pyIntOr (o : Option Int) (default : Int) : Int :=
  match o with
  | none => default
  | some n => if n = 0 then default else n

/-- A reified SQL statement issued against the store. -/
inductive Stmt where
  | insertRow (table : String) (cols : List (String × Value))
  | updateRow (table : String) (sets : List (String × Value)) (key : String) (id : Int)
  | deleteRow (table : String) (key : String) (id : Int)
  | callFn (fname : String) (args : List Value)
deriving DecidableEq, Repr

/-- Effect of `DELETE FROM t WHERE key = id` on a table modelled as a list of
keyed rows. -/
def sqlDeleteWhereId {α : Type} (rows : List (Int × α)) (id : Int) : List (Int × α) :=
  rows.filter (fun r => r.1 != id)

namespace cli

/-- Embeds `cli.friendly_error` (src/app/cli.py lines 53-68): translate a
store failure message to a user-facing category, or fall back to the first
line of the message. -/
def friendly_error (msg : String) : String :=
  let lower := pyLower msg
  if pyContains lower "team_region_chk" then "region is required for a team"
  else if pyContains lower "team_name" && pyContains lower "already exists" then "team name must be unique"
  else if pyContains lower "player_name_chk" then "player name is required"
  else if pyContains lower "different_teams_chk" then "team1 and team2 must be different"
  else if pyContains lower "winner_valid_chk" then "winner must be one of the two teams"
  else if pyContains lower "active players" && pyContains lower "5" then "roster cap is 5 active players"
  else pyFirstLine msg

end cli

namespace gui

/-- Embeds `gui.friendly_error` (src/app/gui.py lines 13-28), the GUI's copy
of the translator. -/
def friendly_error (msg : String) : String :=
  let lower := pyLower msg
  if pyContains lower "team_region_chk" then "region is required for a team"
  else if pyContains lower "team_name" && pyContains lower "already exists" then "team name must be unique"
  else if pyContains lower "player_name_chk" then "player name is required"
  else if pyContains lower "different_teams_chk" then "team1 and team2 must be different"
  else if pyContains lower "winner_valid_chk" then "winner must be one of the two teams"
  else if pyContains lower "active players" && pyContains lower "5" then "roster cap is 5 active players"
  else pyFirstLine msg

end gui

/-- The six rows of the constraint-translation table, in the order the code
tests them: a recognition predicate on the lowercased message and the fixed
domain category returned for it. -/
def error_table : List ((String → Bool) × String) :=
  [ (fun l => pyContains l "team_region_chk", "region is required for a team"),
    (fun l => pyContains l "team_name" && pyContains l "already exists", "team name must be unique"),
    (fun l => pyContains l "player_name_chk", "player name is required"),
    (fun l => pyContains l "different_teams_chk", "team1 and team2 must be different"),
    (fun l => pyContains l "winner_valid_chk", "winner must be one of the two teams"),
    (fun l => pyContains l "active players" && pyContains l "5", "roster cap is 5 active players") ]

/-- Table-driven reading of the translator: first matching row's category,
falling back to the first line of the raw message. -/
def tableLookup (msg : String) : String :=
  match error_table.find? (fun row => row.1 (pyLower msg)) with
  | some row => row.2
  | none => pyFirstLine msg

/-- A message is a recognized constraint signal when some table row matches
its lowercasing. -/
def recognizedSignal (msg : String) : Bool :=
  error_table.any (fun row => row.1 (pyLower msg))

namespace cli

/-- Result of a CLI update handler: the line it prints and the SQL statement
it executes, if any (`none` means no store call is made). -/
structure CliUpdateResult where
  printed : String
  sql : Option Stmt
deriving DecidableEq, Repr

/-- Columns named in the SET clause of the issued UPDATE (empty when no SQL
is issued). -/
def CliUpdateResult.setCols (r : CliUpdateResult) : List String :=
  match r.sql with
  | some (Stmt.updateRow _ sets _ _) => sets.map Prod.fst
  | _ => []

/-- Embeds `cli.prompt_str` (src/app/cli.py lines 9-16) over a stream of
user inputs: returns the accepted value together with the remaining stream;
`none` when the stream is exhausted (the real loop would keep asking). -/
def prompt_str (allow_blank : Bool) : List String → Option (Option String × List String)
  | [] => none
  | v :: rest =>
    let s := pyStrip v
    if s ≠ "" then some (some s, rest)
    else if allow_blank then some (none, rest)
    else prompt_str allow_blank rest

/-- Embeds `cli.prompt_int` (src/app/cli.py lines 19-27) over an input
stream. -/
def prompt_int (allow_blank : Bool) : List String → Option (Option Int × List String)
  | [] => none
  | v :: rest =>
    let s := pyStrip v
    if s = "" ∧ allow_blank then some (none, rest)
    else
      match pyInt? s with
      | some n => some (some n, rest)
      | none => prompt_int allow_blank rest

/-- Embeds `cli.prompt_decimal` (src/app/cli.py lines 30-38) over an input
stream. -/
def prompt_decimal (allow_blank : Bool) : List String → Option (Option (Int × Nat) × List String)
  | [] => none
  | v :: rest =>
    let s := pyStrip v
    if s = "" ∧ allow_blank then some (none, rest)
    else
      match pyDec? s with
      | some d => some (some d, rest)
      | none => prompt_decimal allow_blank rest

/-- Embeds `cli.prompt_date` (src/app/cli.py lines 41-50) over an input
stream; the accepted value is the `isoformat()` string. -/
def prompt_date (allow_blank : Bool) : List String → Option (Option String × List String)
  | [] => none
  | v :: rest =>
    let s := pyStrip v
    if s = "" ∧ allow_blank then some (none, rest)
    else
      match pyDate? s with
      | some ymd => some (some (isoOfDate ymd.1 ymd.2.1 ymd.2.2), rest)
      | none => prompt_date allow_blank rest

/-- Embeds `cli.create_team` (src/app/cli.py lines 99-110) over an input
stream; the result is the INSERT it sends (`none` if the stream runs out
while prompting). -/
def create_team (inputs : List String) : Option Stmt :=
  match prompt_str false inputs with
  | none => none
  | some (name, r1) =>
    match prompt_str false r1 with
    | none => none
    | some (region, r2) =>
      match prompt_int true r2 with
      | none => none
      | some (founded_year, _) =>
        some (Stmt.insertRow "teams"
          [("team_name", optStr name), ("region", optStr region),
           ("founded_year", optInt founded_year)])

/-- Embeds `cli.update_team` (src/app/cli.py lines 113-137), taking the
already-prompted optional new values (each `none` when the user left the
prompt blank). -/
def update_team (team_id : Int) (new_name new_region : Option String)
    (new_year : Option Int) : CliUpdateResult :=
  let updates : List (String × Value) :=
    (match new_name with | some v => [("team_name", Value.vstr v)] | none => []) ++
    (match new_region with | some v => [("region", Value.vstr v)] | none => []) ++
    (match new_year with | some v => [("founded_year", Value.vint v)] | none => [])
  if updates.isEmpty then ⟨"No changes provided.", none⟩
  else ⟨"Team updated.", some (Stmt.updateRow "teams" updates "team_id" team_id)⟩

/-- Embeds `cli.update_player` (src/app/cli.py lines 181-208). -/
def update_player (player_id : Int) (new_name new_country new_role : Option String)
    (new_team : Option Int) : CliUpdateResult :=
  let updates : List (String × Value) :=
    (match new_name with | some v => [("player_name", Value.vstr v)] | none => []) ++
    (match new_country with | some v => [("country", Value.vstr v)] | none => []) ++
    (match new_role with | some v => [("role", Value.vstr v)] | none => []) ++
    (match new_team with | some v => [("team_id", Value.vint v)] | none => [])
  if updates.isEmpty then ⟨"No changes provided.", none⟩
  else ⟨"Player updated.", some (Stmt.updateRow "players" updates "player_id" player_id)⟩

/-- Embeds `cli.update_tournament` (src/app/cli.py lines 256-289). -/
def update_tournament (tournament_id : Int) (new_name new_org : Option String)
    (new_prize : Option (Int × Nat)) (new_start new_end new_loc : Option String) :
    CliUpdateResult :=
  let updates : List (String × Value) :=
    (match new_name with | some v => [("name", Value.vstr v)] | none => []) ++
    (match new_org with | some v => [("organizer", Value.vstr v)] | none => []) ++
    (match new_prize with | some v => [("prize_pool", Value.vdec v.1 v.2)] | none => []) ++
    (match new_start with | some v => [("start_date", Value.vdate v)] | none => []) ++
    (match new_end with | some v => [("end_date", Value.vdate v)] | none => []) ++
    (match new_loc with | some v => [("location", Value.vstr v)] | none => [])
  if updates.isEmpty then ⟨"No changes provided.", none⟩
  else ⟨"Tournament updated.", some (Stmt.updateRow "tournaments" updates "tournament_id" tournament_id)⟩

/-- Embeds `cli.update_map` (src/app/cli.py lines 322-335). -/
def update_map (map_id : Int) (new_name : Option String) : CliUpdateResult :=
  match new_name with
  | none => ⟨"No changes provided.", none⟩
  | some v =>
    ⟨"Map updated.", some (Stmt.updateRow "maps" [("map_name", Value.vstr v)] "map_id" map_id)⟩

/-- The nine optional match fields in the order the `fields` dict of
`cli.update_match` lists them. -/
def matchFields (t t1 t2 w m : Option Int) (d : Option String)
    (bo s1 s2 : Option Int) : List (String × Option Value) :=
  [("tournament_id", t.map Value.vint), ("team1_id", t1.map Value.vint),
   ("team2_id", t2.map Value.vint), ("winner_team_id", w.map Value.vint),
   ("map_id", m.map Value.vint), ("match_date", d.map Value.vdate),
   ("best_of", bo.map Value.vint), ("team1_score", s1.map Value.vint),
   ("team2_score", s2.map Value.vint)]

/-- Embeds `cli.update_match` (src/app/cli.py lines 405-431): build the
fields dict, keep the non-`None` entries, reject an empty set locally. -/
def update_match (match_id : Int) (t t1 t2 w m : Option Int) (d : Option String)
    (bo s1 s2 : Option Int) : CliUpdateResult :=
  let updates := (matchFields t t1 t2 w m d bo s1 s2).filterMap
    (fun kv => kv.2.map (fun v => (kv.1, v)))
  if updates.isEmpty then ⟨"No changes provided.", none⟩
  else ⟨"Match updated.", some (Stmt.updateRow "matches" updates "match_id" match_id)⟩

/-- Embeds `cli.update_result` (src/app/cli.py lines 479-506). -/
def update_result (result_id : Int) (new_tournament new_team new_place : Option Int)
    (new_earnings : Option (Int × Nat)) : CliUpdateResult :=
  let updates : List (String × Value) :=
    (match new_tournament with | some v => [("tournament_id", Value.vint v)] | none => []) ++
    (match new_team with | some v => [("team_id", Value.vint v)] | none => []) ++
    (match new_place with | some v => [("placement", Value.vint v)] | none => []) ++
    (match new_earnings with | some v => [("earnings", Value.vdec v.1 v.2)] | none => [])
  if updates.isEmpty then ⟨"No changes provided.", none⟩
  else ⟨"Tournament result updated.", some (Stmt.updateRow "tournament_results" updates "result_id" result_id)⟩

/-- Embeds `cli.delete_team` (src/app/cli.py lines 140-149): unconditional
DELETE keyed by id; the success line is printed regardless of whether a row
existed. The table is modelled as keyed rows and foreign keys are outside
this model. -/
def delete_team {α : Type} (team_id : Int) (teams : List (Int × α)) :
    String × List (Int × α) :=
  ("Team deleted (if it existed).", sqlDeleteWhereId teams team_id)

/-- Embeds `cli.delete_player` (src/app/cli.py lines 211-220). -/
def delete_player {α : Type} (player_id : Int) (players : List (Int × α)) :
    String × List (Int × α) :=
  ("Player deleted (if it existed).", sqlDeleteWhereId players player_id)

/-- Embeds `cli.delete_tournament` (src/app/cli.py lines 292-301). -/
def delete_tournament {α : Type} (tournament_id : Int) (tournaments : List (Int × α)) :
    String × List (Int × α) :=
  ("Tournament deleted (if it existed).", sqlDeleteWhereId tournaments tournament_id)

/-- Embeds `cli.delete_map` (src/app/cli.py lines 338-347). -/
def delete_map {α : Type} (map_id : Int) (maps : List (Int × α)) :
    String × List (Int × α) :=
  ("Map deleted (if it existed).", sqlDeleteWhereId maps map_id)

/-- Embeds `cli.delete_match` (src/app/cli.py lines 434-443). -/
def delete_match {α : Type} (match_id : Int) (matchRows : List (Int × α)) :
    String × List (Int × α) :=
  ("Match deleted (if it existed).", sqlDeleteWhereId matchRows match_id)

/-- Embeds `cli.delete_result` (src/app/cli.py lines 509-518). -/
def delete_result {α : Type} (result_id : Int) (results : List (Int × α)) :
    String × List (Int × α) :=
  ("Result deleted (if it existed).", sqlDeleteWhereId results result_id)

/-- Embeds `cli.remove_from_roster` (src/app/cli.py lines 565-574). -/
def remove_from_roster {α : Type} (roster_id : Int) (roster : List (Int × α)) :
    String × List (Int × α) :=
  ("Roster entry deleted (if it existed).", sqlDeleteWhereId roster roster_id)

end cli

namespace gui

/-- Outcome of a GUI handler: an error surfaced through `self.error`, a
silent cancellation, an exception escaping the handler (raised outside the
`try` block), or an executed SQL statement. Only `exec` contacts the
store. -/
inductive GuiOutcome where
  | err (msg : String)
  | cancelled
  | uncaught (msg : String)
  | exec (s : Stmt)
deriving DecidableEq, Repr

/-- Columns named in the SET clause of the UPDATE a GUI handler issued
(empty when it issued none). -/
def GuiOutcome.setCols (o : GuiOutcome) : List String :=
  match o with
  | GuiOutcome.exec (Stmt.updateRow _ sets _ _) => sets.map Prod.fst
  | _ => []

/-- Embeds `gui.parse_int` (src/app/gui.py lines 31-33): blank is `None`,
otherwise Python `int()`; an unparsable value raises `ValueError`. -/
def parse_int (value : String) : Except String (Option Int) :=
  if value = "" then Except.ok none
  else
    match pyInt? value with
    | some n => Except.ok (some n)
    | none => Except.error "invalid literal for int() with base 10"

/-- Embeds `gui.parse_decimal` (src/app/gui.py lines 36-43). -/
def parse_decimal (value : String) : Except String (Option (Int × Nat)) :=
  if value = "" then Except.ok none
  else
    match pyDec? value with
    | some d => Except.ok (some d)
    | none => Except.error "Invalid decimal"

/-- Embeds `gui.parse_date` (src/app/gui.py lines 46-53); the accepted value
is the date's ISO string. -/
def parse_date (value : String) : Except String (Option String) :=
  if value = "" then Except.ok none
  else
    match pyDate? value with
    | some ymd => Except.ok (some (isoOfDate ymd.1 ymd.2.1 ymd.2.2))
    | none => Except.error "Use YYYY-MM-DD"

/-- Embeds `gui.parse_combo_id` (src/app/gui.py lines 56-63): `None`/blank
give no selection; otherwise `int` of the text before the first " - ",
raising `ValueError("Pick a value from the dropdown")` when that fails. -/
def parse_combo_id (value : Option String) : Except String (Option Int) :=
  match value with
  | none => Except.ok none
  | some s =>
    if s = "" then Except.ok none
    else
      match pyInt? (pySplitBefore " - " s) with
      | some n => Except.ok (some n)
      | none => Except.error "Pick a value from the dropdown"

/-- Displayed cells of the selected teams-tree row (columns 1..3; the id is
column 0). Column 3 holds the COALESCEd text, "-" for a NULL year. -/
structure TeamRowView where
  name : String
  region : String
  founded : String
deriving DecidableEq, Repr

/-- Embeds `gui.TeamsFrame.create` (src/app/gui.py lines 175-190). -/
def TeamsFrame.create (name region founded : String) : GuiOutcome :=
  if pyStrip name = "" ∨ pyStrip region = "" then
    GuiOutcome.err "team name and region are required"
  else
    match parse_int founded with
    | Except.error e => GuiOutcome.err e
    | Except.ok founded_year =>
      GuiOutcome.exec (Stmt.insertRow "teams"
        [("team_name", Value.vstr name), ("region", Value.vstr region),
         ("founded_year", optInt founded_year)])

/-- Embeds `gui.TeamsFrame.update` (src/app/gui.py lines 192-215):
`selected` is the tree selection (id plus the previously loaded row's
displayed cells); blank form fields fall back to the selected row's values
and the UPDATE always sets all three columns. -/
def TeamsFrame.update (selected : Option (Int × TeamRowView))
    (name region founded : String) : GuiOutcome :=
  match selected with
  | none => GuiOutcome.err "Select a team to update"
  | some (team_id, current) =>
    if pyStrip name = "" ∧ pyStrip region = "" ∧ pyStrip founded = "" then
      GuiOutcome.err "Enter at least one field to update"
    else
      let name_val := if pyStrip name = "" then current.name else pyStrip name
      let region_val := if pyStrip region = "" then current.region else pyStrip region
      if name_val = "" ∨ region_val = "" then
        GuiOutcome.err "team name and region are required"
      else
        match (if pyStrip founded ≠ "" then (parse_int founded).map optInt
               else Except.ok (Value.vstr current.founded)) with
        | Except.error e => GuiOutcome.err e
        | Except.ok founded_val =>
          GuiOutcome.exec (Stmt.updateRow "teams"
            [("team_name", Value.vstr name_val), ("region", Value.vstr region_val),
             ("founded_year", founded_val)] "team_id" team_id)

/-- Embeds `gui.TeamsFrame.delete` (src/app/gui.py lines 217-230):
unconditional DELETE keyed by id after the confirmation dialog. -/
def TeamsFrame.delete {α : Type} (selected : Option Int) (confirmed : Bool)
    (teams : List (Int × α)) : GuiOutcome × List (Int × α) :=
  match selected with
  | none => (GuiOutcome.err "Select a team to delete", teams)
  | some team_id =>
    if ¬ confirmed then (GuiOutcome.cancelled, teams)
    else (GuiOutcome.exec (Stmt.deleteRow "teams" "team_id" team_id),
          sqlDeleteWhereId teams team_id)

/-- Displayed cells of the selected players-tree row (columns 1..4). -/
structure PlayerRowView where
  name : String
  country : String
  role : String
  team : String
deriving DecidableEq, Repr

/-- Embeds `gui.PlayersFrame.create` (src/app/gui.py lines 297-314). -/
def PlayersFrame.create (name country role team : String) : GuiOutcome :=
  if pyStrip name = "" then GuiOutcome.err "player name is required"
  else
    match parse_combo_id (some team) with
    | Except.error e => GuiOutcome.err e
    | Except.ok team_id =>
      GuiOutcome.exec (Stmt.insertRow "players"
        [("player_name", Value.vstr name), ("country", pyOrNone country),
         ("role", pyOrNone role), ("team_id", optInt team_id)])

/-- Embeds `gui.PlayersFrame.update` (src/app/gui.py lines 316-340): a
blank name falls back to the selected row and the UPDATE always sets all
four columns. -/
def PlayersFrame.update (selected : Option (Int × PlayerRowView))
    (name country role team : String) : GuiOutcome :=
  match selected with
  | none => GuiOutcome.err "Select a player to update"
  | some (player_id, current) =>
    if pyStrip name = "" ∧ pyStrip country = "" ∧ pyStrip role = "" ∧ pyStrip team = "" then
      GuiOutcome.err "Enter at least one field to update"
    else
      let name_val := if pyStrip name = "" then current.name else pyStrip name
      if name_val = "" then GuiOutcome.err "player name is required"
      else
        match parse_combo_id (some team) with
        | Except.error e => GuiOutcome.err e
        | Except.ok team_id =>
          GuiOutcome.exec (Stmt.updateRow "players"
            [("player_name", Value.vstr name_val), ("country", pyOrNone country),
             ("role", pyOrNone role), ("team_id", optInt team_id)] "player_id" player_id)

/-- Embeds `gui.TournamentsFrame.create` (src/app/gui.py lines 413-435). -/
def TournamentsFrame.create (name org prize start endd loc : String) : GuiOutcome :=
  if pyStrip name = "" then GuiOutcome.err "tournament name is required"
  else
    match parse_decimal prize with
    | Except.error e => GuiOutcome.err e
    | Except.ok pz =>
      let prize_val := pyDecOr0 pz
      match parse_date start with
      | Except.error e => GuiOutcome.err e
      | Except.ok start_date =>
        match parse_date endd with
        | Except.error e => GuiOutcome.err e
        | Except.ok end_date =>
          GuiOutcome.exec (Stmt.insertRow "tournaments"
            [("name", Value.vstr name), ("organizer", pyOrNone org),
             ("prize_pool", Value.vdec prize_val.1 prize_val.2),
             ("start_date", optDate start_date), ("end_date", optDate end_date),
             ("location", pyOrNone loc)])

/-- Displayed cells of the selected tournaments-tree row (column 1 is the
name; the other columns are not read back by `update`). -/
structure TourRowView where
  name : String
deriving DecidableEq, Repr

/-- Embeds `gui.TournamentsFrame.update` (src/app/gui.py lines 437-466): a
blank name falls back to the selected row, a blank prize becomes
`Decimal("0")`, blank dates become NULL, and the UPDATE always sets all six
columns. -/
def TournamentsFrame.update (selected : Option (Int × TourRowView))
    (name org prize start endd loc : String) : GuiOutcome :=
  match selected with
  | none => GuiOutcome.err "Select a tournament to update"
  | some (tid, current) =>
    if pyStrip name = "" ∧ pyStrip org = "" ∧ pyStrip prize = "" ∧
        pyStrip start = "" ∧ pyStrip endd = "" ∧ pyStrip loc = "" then
      GuiOutcome.err "Enter at least one field to update"
    else
      let name_val := if pyStrip name = "" then current.name else pyStrip name
      if name_val = "" then GuiOutcome.err "tournament name is required"
      else
        match parse_decimal prize with
        | Except.error e => GuiOutcome.err e
        | Except.ok pz =>
          let prize_val := pyDecOr0 pz
          match parse_date start with
          | Except.error e => GuiOutcome.err e
          | Except.ok start_date =>
            match parse_date endd with
            | Except.error e => GuiOutcome.err e
            | Except.ok end_date =>
              GuiOutcome.exec (Stmt.updateRow "tournaments"
                [("name", Value.vstr name_val), ("organizer", pyOrNone org),
                 ("prize_pool", Value.vdec prize_val.1 prize_val.2),
                 ("start_date", optDate start_date), ("end_date", optDate end_date),
                 ("location", pyOrNone loc)] "tournament_id" tid)

/-- Embeds `gui.MatchesFrame.create` (src/app/gui.py lines 575-600). -/
def MatchesFrame.create (tournament team1 team2 winner mapv dateS bestOfS t1S t2S : String) :
    GuiOutcome :=
  match parse_combo_id (some tournament) with
  | Except.error e => GuiOutcome.err e
  | Except.ok tid =>
  match parse_combo_id (some team1) with
  | Except.error e => GuiOutcome.err e
  | Except.ok t1 =>
  match parse_combo_id (some team2) with
  | Except.error e => GuiOutcome.err e
  | Except.ok t2 =>
  if tid = none ∨ t1 = none ∨ t2 = none then
    GuiOutcome.err "tournament and both teams are required"
  else
  match parse_combo_id (some winner) with
  | Except.error e => GuiOutcome.err e
  | Except.ok w =>
  match parse_combo_id (some mapv) with
  | Except.error e => GuiOutcome.err e
  | Except.ok mp =>
  match parse_date dateS with
  | Except.error e => GuiOutcome.err e
  | Except.ok match_date =>
  match parse_int bestOfS with
  | Except.error e => GuiOutcome.err e
  | Except.ok bo =>
  match parse_int t1S with
  | Except.error e => GuiOutcome.err e
  | Except.ok s1 =>
  match parse_int t2S with
  | Except.error e => GuiOutcome.err e
  | Except.ok s2 =>
    GuiOutcome.exec (Stmt.callFn "validate_and_insert_match"
      [optInt tid, optInt t1, optInt t2, optInt w, optInt mp, optDate match_date,
       Value.vint (pyIntOr bo 1), Value.vint (pyIntOr s1 0), Value.vint (pyIntOr s2 0)])

/-- Embeds the `updates` dict literal of `gui.MatchesFrame.update`
(src/app/gui.py lines 607-617): the nine parses run in order outside the
`try` block, so the first failure propagates as an uncaught exception. -/
def MatchesFrame.updatesDict (tournament team1 team2 winner mapv dateS bestOfS t1S t2S : String) :
    Except String (List (String × Option Value)) := do
  let tid ← parse_combo_id (some tournament)
  let t1 ← parse_combo_id (some team1)
  let t2 ← parse_combo_id (some team2)
  let w ← parse_combo_id (some winner)
  let mp ← parse_combo_id (some mapv)
  let md ← parse_date dateS
  let bo ← parse_int bestOfS
  let s1 ← parse_int t1S
  let s2 ← parse_int t2S
  pure [("tournament_id", tid.map Value.vint), ("team1_id", t1.map Value.vint),
        ("team2_id", t2.map Value.vint), ("winner_team_id", w.map Value.vint),
        ("map_id", mp.map Value.vint), ("match_date", md.map Value.vdate),
        ("best_of", bo.map Value.vint), ("team1_score", s1.map Value.vint),
        ("team2_score", s2.map Value.vint)]

/-- Embeds `gui.MatchesFrame.update` (src/app/gui.py lines 602-629): keep
the non-`None` entries of the dict, reject an empty set locally, otherwise
issue a targeted UPDATE naming only those columns. -/
def MatchesFrame.update (selected : Option Int)
    (tournament team1 team2 winner mapv dateS bestOfS t1S t2S : String) : GuiOutcome :=
  match selected with
  | none => GuiOutcome.err "Select a match to update"
  | some mid =>
    match MatchesFrame.updatesDict tournament team1 team2 winner mapv dateS bestOfS t1S t2S with
    | Except.error e => GuiOutcome.uncaught e
    | Except.ok pairs =>
      let updates := pairs.filterMap (fun kv => kv.2.map (fun v => (kv.1, v)))
      if updates.isEmpty then GuiOutcome.err "Enter at least one field to update"
      else GuiOutcome.exec (Stmt.updateRow "matches" updates "match_id" mid)

/-- Embeds `gui.ResultsFrame.create` (src/app/gui.py lines 711-734). -/
def ResultsFrame.create (tournament team placement earnings : String) : GuiOutcome :=
  if pyStrip tournament = "" ∨ pyStrip team = "" ∨ pyStrip placement = "" then
    GuiOutcome.err "tournament, team, placement are required"
  else
    match parse_combo_id (some tournament) with
    | Except.error e => GuiOutcome.err e
    | Except.ok tid =>
    match parse_combo_id (some team) with
    | Except.error e => GuiOutcome.err e
    | Except.ok teamId =>
    match parse_int placement with
    | Except.error e => GuiOutcome.err e
    | Except.ok placement_val =>
    match parse_decimal earnings with
    | Except.error e => GuiOutcome.err e
    | Except.ok ez =>
      let earnings_val := pyDecOr0 ez
      GuiOutcome.exec (Stmt.insertRow "tournament_results"
        [("tournament_id", optInt tid), ("team_id", optInt teamId),
         ("placement", optInt placement_val),
         ("earnings", Value.vdec earnings_val.1 earnings_val.2)])

end gui

/-- A psycopg2 connection as `app.db.get_conn` configures it
(`autocommit = False`): the store state already committed, the state the
open transaction would publish, and how many commits have run. -/
structure PGConn (σ : Type) where
  committed : σ
  pending : σ
  commits : Nat
deriving DecidableEq, Repr

/-- Model of `psycopg2.connect`: a fresh connection with no pending work. -/
def pgConnect {σ : Type} (db : σ) : PGConn σ :=
  ⟨db, db, 0⟩

/-- Model of `conn.commit()`: publish the pending state. -/
def PGConn.commit {σ : Type} (c : PGConn σ) : PGConn σ :=
  { c with committed := c.pending, commits := c.commits + 1 }

/-- Model of `conn.rollback()`: discard the pending state. -/
def PGConn.rollback {σ : Type} (c : PGConn σ) : PGConn σ :=
  { c with pending := c.committed }

/-- Model of `conn.close()`: the store keeps the committed state (an open
transaction is implicitly rolled back by the server on close). -/
def PGConn.close {σ : Type} (c : PGConn σ) : σ × Nat :=
  (c.committed, c.commits)

/-- Body run under a connection: each `cursor.execute` reads and writes the
transaction's pending state only, and may raise. -/
def runStatements {σ ε α : Type} (work : σ → Except ε (σ × α)) (c : PGConn σ) :
    Except ε α × PGConn σ :=
  match work c.pending with
  | Except.ok (p, a) => (Except.ok a, { c with pending := p })
  | Except.error e => (Except.error e, c)

/-- Embeds `app.db.get_conn` (src/app/db.py lines 17-29): connect with
autocommit off, run the body, commit on success, roll back and re-raise on
any exception, close in all cases. Returns the call's outcome, the store
state visible after the call, and the number of commits performed. -/
def get_conn {σ ε α : Type} (db : σ) (body : PGConn σ → Except ε α × PGConn σ) :
    Except ε α × σ × Nat :=
  let conn := pgConnect db
  match body conn with
  | (Except.ok a, c) =>
    let c2 := c.commit
    (Except.ok a, (c2.close).1, (c2.close).2)
  | (Except.error e, c) =>
    let c2 := c.rollback
    (Except.error e, (c2.close).1, (c2.close).2)

/-- Sort direction of one ORDER BY key. -/
inductive SortDir where
  | asc
  | desc
deriving DecidableEq, Repr

/-- Null placement of one ORDER BY key: explicit NULLS FIRST/LAST or the
PostgreSQL default (nulls last for ASC, nulls first for DESC). -/
inductive NullsOrder where
  | nfirst
  | nlast
  | ndefault
deriving DecidableEq, Repr

/-- One key of an ORDER BY clause as written in the query text. -/
structure SortKey where
  col : String
  dir : SortDir
  nulls : NullsOrder
deriving DecidableEq, Repr

/-- Comparison of two `Int`s as an `Ordering`. -/
def intCmp (x y : Int) : Ordering :=
  if x < y then Ordering.lt else if x = y then Ordering.eq else Ordering.gt

/-- PostgreSQL comparison of two nullable cells under one sort key. -/
def SortKey.cmpCell (k : SortKey) (a b : Option Int) : Ordering :=
  match a, b with
  | none, none => Ordering.eq
  | none, some _ =>
    match k.nulls with
    | NullsOrder.nfirst => Ordering.lt
    | NullsOrder.nlast => Ordering.gt
    | NullsOrder.ndefault =>
      match k.dir with
      | SortDir.asc => Ordering.gt
      | SortDir.desc => Ordering.lt
  | some _, none =>
    match k.nulls with
    | NullsOrder.nfirst => Ordering.gt
    | NullsOrder.nlast => Ordering.lt
    | NullsOrder.ndefault =>
      match k.dir with
      | SortDir.asc => Ordering.lt
      | SortDir.desc => Ordering.gt
  | some x, some y =>
    match k.dir with
    | SortDir.asc => intCmp x y
    | SortDir.desc => (intCmp x y).swap

/-- Lexicographic comparison of two rows (cells given in the key order of
the ORDER BY clause). -/
def orderCompare : List SortKey → List (Option Int) → List (Option Int) → Ordering
  | [], _, _ => Ordering.eq
  | k :: ks, a, b =>
    match a, b with
    | x :: xs, y :: ys =>
      match k.cmpCell x y with
      | Ordering.eq => orderCompare ks xs ys
      | o => o
    | _, _ => Ordering.eq

namespace cli

/-- ORDER BY of `cli.list_teams` (src/app/cli.py line 94): `ORDER BY
team_name`. -/
def list_teams_order : List SortKey :=
  [⟨"team_name", SortDir.asc, NullsOrder.ndefault⟩]

/-- ORDER BY of `cli.list_players` (src/app/cli.py line 160): `ORDER BY
p.player_name`. -/
def list_players_order : List SortKey :=
  [⟨"p.player_name", SortDir.asc, NullsOrder.ndefault⟩]

/-- ORDER BY of `cli.list_tournaments` (src/app/cli.py line 229): `ORDER BY
start_date DESC NULLS LAST, name`. -/
def list_tournaments_order : List SortKey :=
  [⟨"start_date", SortDir.desc, NullsOrder.nlast⟩,
   ⟨"name", SortDir.asc, NullsOrder.ndefault⟩]

/-- ORDER BY of `cli.list_maps` (src/app/cli.py line 306): `ORDER BY
map_name`. -/
def list_maps_order : List SortKey :=
  [⟨"map_name", SortDir.asc, NullsOrder.ndefault⟩]

/-- ORDER BY of `cli.list_matches` (src/app/cli.py line 363): `ORDER BY
m.match_date NULLS LAST, m.match_id`. -/
def list_matches_order : List SortKey :=
  [⟨"m.match_date", SortDir.asc, NullsOrder.nlast⟩,
   ⟨"m.match_id", SortDir.asc, NullsOrder.ndefault⟩]

/-- ORDER BY of `cli.list_results` (src/app/cli.py line 454): `ORDER BY
t.start_date NULLS LAST, r.placement` (ascending start date). -/
def list_results_order : List SortKey :=
  [⟨"t.start_date", SortDir.asc, NullsOrder.nlast⟩,
   ⟨"r.placement", SortDir.asc, NullsOrder.ndefault⟩]

end cli

namespace gui

/-- ORDER BY of `gui.TeamsFrame.refresh` (src/app/gui.py line 170). -/
def TeamsFrame.refresh_order : List SortKey :=
  [⟨"team_name", SortDir.asc, NullsOrder.ndefault⟩]

/-- ORDER BY of `gui.PlayersFrame.refresh` (src/app/gui.py line 289). -/
def PlayersFrame.refresh_order : List SortKey :=
  [⟨"p.player_name", SortDir.asc, NullsOrder.ndefault⟩]

/-- ORDER BY of `gui.TournamentsFrame.refresh` (src/app/gui.py line 407). -/
def TournamentsFrame.refresh_order : List SortKey :=
  [⟨"start_date", SortDir.desc, NullsOrder.nlast⟩,
   ⟨"name", SortDir.asc, NullsOrder.ndefault⟩]

/-- ORDER BY of `gui.MatchesFrame.refresh` (src/app/gui.py line 558). -/
def MatchesFrame.refresh_order : List SortKey :=
  [⟨"m.match_date", SortDir.asc, NullsOrder.nlast⟩,
   ⟨"m.match_id", SortDir.asc, NullsOrder.ndefault⟩]

/-- ORDER BY of `gui.ResultsFrame.refresh` (src/app/gui.py line 701):
`ORDER BY t.start_date DESC NULLS LAST, r.placement` (descending start
date). -/
def ResultsFrame.refresh_order : List SortKey :=
  [⟨"t.start_date", SortDir.desc, NullsOrder.nlast⟩,
   ⟨"r.placement", SortDir.asc, NullsOrder.ndefault⟩]

end gui

/-- Column names a caller's partial team update names: exactly the fields
that are present. -/
def providedTeamCols (nn nr : Option String) (ny : Option Int) : List String :=
  (match nn with | some _ => ["team_name"] | none => []) ++
  (match nr with | some _ => ["region"] | none => []) ++
  (match ny with | some _ => ["founded_year"] | none => [])

/-- Column names a caller's partial match update names: exactly the fields
that are present, in the dict order. -/
def providedMatchCols (t t1 t2 w m : Option Int) (d : Option String)
    (bo s1 s2 : Option Int) : List String :=
  (cli.matchFields t t1 t2 w m d bo s1 s2).filterMap
    (fun kv => kv.2.map (fun _ => kv.1))

/-- Column names a caller's partial player update names: exactly the fields
that are present. -/
def providedPlayerCols (nn nc nr : Option String) (nt : Option Int) : List String :=
  (match nn with | some _ => ["player_name"] | none => []) ++
  (match nc with | some _ => ["country"] | none => []) ++
  (match nr with | some _ => ["role"] | none => []) ++
  (match nt with | some _ => ["team_id"] | none => [])

/-- Column names a caller's partial tournament update names: exactly the
fields that are present. -/
def providedTournamentCols (nn norg : Option String) (np : Option (Int × Nat))
    (ns nend nl : Option String) : List String :=
  (match nn with | some _ => ["name"] | none => []) ++
  (match norg with | some _ => ["organizer"] | none => []) ++
  (match np with | some _ => ["prize_pool"] | none => []) ++
  (match ns with | some _ => ["start_date"] | none => []) ++
  (match nend with | some _ => ["end_date"] | none => []) ++
  (match nl with | some _ => ["location"] | none => [])

/-- Column names a caller's partial map update names: exactly the field
that is present. -/
def providedMapCols (nn : Option String) : List String :=
  match nn with
  | some _ => ["map_name"]
  | none => []

/-- Column names a caller's partial result update names: exactly the fields
that are present. -/
def providedResultCols (nt ntm npl : Option Int) (ne : Option (Int × Nat)) : List String :=
  (match nt with | some _ => ["tournament_id"] | none => []) ++
  (match ntm with | some _ => ["team_id"] | none => []) ++
  (match npl with | some _ => ["placement"] | none => []) ++
  (match ne with | some _ => ["earnings"] | none => [])

/-- Helper: under equal lowercasings, a recognized message translates the
same way through `cli.friendly_error` (only the unrecognized fallback reads
the original message). -/
theorem aux_friendly_error_lower (m1 m2 : String) (hlow : pyLower m1 = pyLower m2)
    (hrec : recognizedSignal m1 = true) :
    cli.friendly_error m1 = cli.friendly_error m2 := by
  have hrec2 : recognizedSignal m2 = true := by
    unfold recognizedSignal at hrec ⊢
    rw [hlow] at hrec
    exact hrec
  unfold cli.friendly_error
  rw [hlow]
  by_cases h1 : pyContains (pyLower m2) "team_region_chk"
  · simp [h1]
  · by_cases h2 : pyContains (pyLower m2) "team_name" && pyContains (pyLower m2) "already exists"
    · simp [h1, h2]
    · by_cases h3 : pyContains (pyLower m2) "player_name_chk"
      · simp [h1, h2, h3]
      · by_cases h4 : pyContains (pyLower m2) "different_teams_chk"
        · simp [h1, h2, h3, h4]
        · by_cases h5 : pyContains (pyLower m2) "winner_valid_chk"
          · simp [h1, h2, h3, h4, h5]
          · by_cases h6 : pyContains (pyLower m2) "active players" && pyContains (pyLower m2) "5"
            · simp [h1, h2, h3, h4, h5, h6]
            · exfalso
              unfold recognizedSignal error_table at hrec2
              simp [List.any] at hrec2
              rcases hrec2 with h | h | h | h | h | h
              · exact h1 h
              · exact h2 (by simp [h.1, h.2])
              · exact h3 h
              · exact h4 h
              · exact h5 h
              · exact h6 (by simp [h.1, h.2])

/-- C4: the constraint translator maps each recognized signal pattern to
its fixed domain category (first matching row of the six-row table) and
returns exactly the first line of the message when no pattern matches. -/
theorem spec_c4 (msg : String) :
    cli.friendly_error msg = tableLookup msg ∧
    ((∀ row ∈ error_table, row.1 (pyLower msg) = false) →
      cli.friendly_error msg = pyFirstLine msg) := by
  constructor
  · unfold cli.friendly_error tableLookup error_table
    by_cases h1 : pyContains (pyLower msg) "team_region_chk"
    · simp [h1, List.find?]
    · by_cases h2 : pyContains (pyLower msg) "team_name" && pyContains (pyLower msg) "already exists"
      · simp [h1, h2, List.find?]
      · by_cases h3 : pyContains (pyLower msg) "player_name_chk"
        · simp [h1, h2, h3, List.find?]
        · by_cases h4 : pyContains (pyLower msg) "different_teams_chk"
          · simp [h1, h2, h3, h4, List.find?]
          · by_cases h5 : pyContains (pyLower msg) "winner_valid_chk"
            · simp [h1, h2, h3, h4, h5, List.find?]
            · by_cases h6 : pyContains (pyLower msg) "active players" && pyContains (pyLower msg) "5"
              · simp [h1, h2, h3, h4, h5, h6, List.find?]
              · simp [h1, h2, h3, h4, h5, h6, List.find?]
  · intro hall
    have h1 := hall _ (by simp [error_table] : ((fun l => pyContains l "team_region_chk", "region is required for a team") : (String → Bool) × String) ∈ error_table)
    have h2 := hall _ (by simp [error_table] : ((fun l => pyContains l "team_name" && pyContains l "already exists", "team name must be unique") : (String → Bool) × String) ∈ error_table)
    have h3 := hall _ (by simp [error_table] : ((fun l => pyContains l "player_name_chk", "player name is required") : (String → Bool) × String) ∈ error_table)
    have h4 := hall _ (by simp [error_table] : ((fun l => pyContains l "different_teams_chk", "team1 and team2 must be different") : (String → Bool) × String) ∈ error_table)
    have h5 := hall _ (by simp [error_table] : ((fun l => pyContains l "winner_valid_chk", "winner must be one of the two teams") : (String → Bool) × String) ∈ error_table)
    have h6 := hall _ (by simp [error_table] : ((fun l => pyContains l "active players" && pyContains l "5", "roster cap is 5 active players") : (String → Bool) × String) ∈ error_table)
    simp only at h1 h2 h3 h4 h5 h6
    unfold cli.friendly_error
    simp [h1, h2, h3, h4, h5, h6]

/-- Witness for C4 at a concrete unrecognized two-line message: the
translator returns exactly the first line. -/
theorem spec_c4_witness :
    cli.friendly_error "connection refused\nDETAIL: boom" = "connection refused" := by
  have h := (spec_c4 "connection refused\nDETAIL: boom").2 (by decide)
  rw [h]
  decide

/-- C5: the CLI's and the GUI's constraint translators are extensionally
equal (the two copies translate every failure signal identically). -/
theorem spec_c5 : ∀ msg : String, cli.friendly_error msg = gui.friendly_error msg :=
  fun _ => rfl

/-- C10: pattern matching is case-insensitive: two messages with equal
lowercasings translate identically in both front ends whenever one of them
is a recognized signal (only the unrecognized fallback preserves case). -/
theorem spec_c10 (m1 m2 : String) (hlow : pyLower m1 = pyLower m2)
    (hrec : recognizedSignal m1 = true) :
    cli.friendly_error m1 = cli.friendly_error m2 ∧
    gui.friendly_error m1 = gui.friendly_error m2 := by
  have key := aux_friendly_error_lower m1 m2 hlow hrec
  have gcli : ∀ m, gui.friendly_error m = cli.friendly_error m := fun _ => rfl
  exact ⟨key, by rw [gcli, gcli]; exact key⟩

/-- Witness for C10: an upper-cased region-check signal and its lower-cased
form get the same category. -/
theorem spec_c10_witness :
    cli.friendly_error "TEAM_REGION_CHK violated" = cli.friendly_error "team_region_chk violated" ∧
    gui.friendly_error "TEAM_REGION_CHK violated" = gui.friendly_error "team_region_chk violated" :=
  spec_c10 "TEAM_REGION_CHK violated" "team_region_chk violated" (by decide) (by decide)

/-- C1: for every entity and id, an update whose partial value set is empty
or all-blank is answered locally with the no-changes condition ("No changes
provided." in the CLI result, the "Enter at least one field to update"
error in the GUI) and carries no SQL statement, so no store call is made. -/
theorem spec_c1 :
    (∀ id : Int, cli.update_team id none none none = ⟨"No changes provided.", none⟩) ∧
    (∀ id : Int, cli.update_player id none none none none = ⟨"No changes provided.", none⟩) ∧
    (∀ id : Int, cli.update_tournament id none none none none none none = ⟨"No changes provided.", none⟩) ∧
    (∀ id : Int, cli.update_map id none = ⟨"No changes provided.", none⟩) ∧
    (∀ id : Int, cli.update_match id none none none none none none none none none = ⟨"No changes provided.", none⟩) ∧
    (∀ id : Int, cli.update_result id none none none none = ⟨"No changes provided.", none⟩) ∧
    (∀ (id : Int) (cur : gui.TeamRowView) (name region founded : String),
      pyStrip name = "" → pyStrip region = "" → pyStrip founded = "" →
      gui.TeamsFrame.update (some (id, cur)) name region founded =
        gui.GuiOutcome.err "Enter at least one field to update") ∧
    (∀ (id : Int) (cur : gui.PlayerRowView) (name country role team : String),
      pyStrip name = "" → pyStrip country = "" → pyStrip role = "" → pyStrip team = "" →
      gui.PlayersFrame.update (some (id, cur)) name country role team =
        gui.GuiOutcome.err "Enter at least one field to update") ∧
    (∀ (id : Int) (cur : gui.TourRowView) (name org prize start endd loc : String),
      pyStrip name = "" → pyStrip org = "" → pyStrip prize = "" → pyStrip start = "" →
      pyStrip endd = "" → pyStrip loc = "" →
      gui.TournamentsFrame.update (some (id, cur)) name org prize start endd loc =
        gui.GuiOutcome.err "Enter at least one field to update") ∧
    (∀ mid : Int, gui.MatchesFrame.update (some mid) "" "" "" "" "" "" "" "" "" =
        gui.GuiOutcome.err "Enter at least one field to update") := by
  refine ⟨fun _ => rfl, fun _ => rfl, fun _ => rfl, fun _ => rfl, fun _ => rfl, fun _ => rfl,
    ?_, ?_, ?_, fun _ => rfl⟩
  · intro id cur name region founded h1 h2 h3
    simp [gui.TeamsFrame.update, h1, h2, h3]
  · intro id cur name country role team h1 h2 h3 h4
    simp [gui.PlayersFrame.update, h1, h2, h3, h4]
  · intro id cur name org prize start endd loc h1 h2 h3 h4 h5 h6
    simp [gui.TournamentsFrame.update, h1, h2, h3, h4, h5, h6]

/-- Witness for C1: concrete all-blank (whitespace-only) form submissions
are rejected with the no-changes condition in each GUI frame. -/
theorem spec_c1_witness :
    gui.TeamsFrame.update (some (1, ⟨"Alpha", "EU", "2020"⟩)) " " "" "\t" =
      gui.GuiOutcome.err "Enter at least one field to update" ∧
    gui.PlayersFrame.update (some (2, ⟨"Neo", "SE", "AWP", "1 - Alpha"⟩)) "" " " "" "" =
      gui.GuiOutcome.err "Enter at least one field to update" ∧
    gui.TournamentsFrame.update (some (3, ⟨"Major"⟩)) "" "" " " "" "" "  " =
      gui.GuiOutcome.err "Enter at least one field to update" :=
  ⟨(spec_c1.2.2.2.2.2.2.1) 1 ⟨"Alpha", "EU", "2020"⟩ " " "" "\t"
      (by decide) (by decide) (by decide),
   (spec_c1.2.2.2.2.2.2.2.1) 2 ⟨"Neo", "SE", "AWP", "1 - Alpha"⟩ "" " " "" ""
      (by decide) (by decide) (by decide) (by decide),
   (spec_c1.2.2.2.2.2.2.2.2.1) 3 ⟨"Major"⟩ "" "" " " "" "" "  "
      (by decide) (by decide) (by decide) (by decide) (by decide) (by decide)⟩

/-- Helper: filtering a list twice with the same predicate equals filtering
once. -/
theorem aux_filter_idem {α : Type} (p : α → Bool) (l : List α) :
    (l.filter p).filter p = l.filter p := by
  induction l with
  | nil => rfl
  | cons a t ih =>
    by_cases h : p a <;> simp [List.filter_cons, h, ih]

/-- C9: delete is idempotent for every entity: both front ends issue an
unconditional DELETE keyed by id, report success whether or not a row was
removed, and a second delete with the same id succeeds and leaves the store
exactly as the first left it. -/
theorem spec_c9 {α : Type} (rows : List (Int × α)) (id : Int) :
    (cli.delete_team id rows).1 = "Team deleted (if it existed)." ∧
    (cli.delete_team id (cli.delete_team id rows).2).1 = "Team deleted (if it existed)." ∧
    (cli.delete_team id (cli.delete_team id rows).2).2 = (cli.delete_team id rows).2 ∧
    (cli.delete_player id rows).1 = "Player deleted (if it existed)." ∧
    (cli.delete_player id (cli.delete_player id rows).2).2 = (cli.delete_player id rows).2 ∧
    (cli.delete_tournament id rows).1 = "Tournament deleted (if it existed)." ∧
    (cli.delete_tournament id (cli.delete_tournament id rows).2).2 = (cli.delete_tournament id rows).2 ∧
    (cli.delete_map id rows).1 = "Map deleted (if it existed)." ∧
    (cli.delete_map id (cli.delete_map id rows).2).2 = (cli.delete_map id rows).2 ∧
    (cli.delete_match id rows).1 = "Match deleted (if it existed)." ∧
    (cli.delete_match id (cli.delete_match id rows).2).2 = (cli.delete_match id rows).2 ∧
    (cli.delete_result id rows).1 = "Result deleted (if it existed)." ∧
    (cli.delete_result id (cli.delete_result id rows).2).2 = (cli.delete_result id rows).2 ∧
    (cli.remove_from_roster id rows).1 = "Roster entry deleted (if it existed)." ∧
    (cli.remove_from_roster id (cli.remove_from_roster id rows).2).2 = (cli.remove_from_roster id rows).2 ∧
    (gui.TeamsFrame.delete (some id) true rows).1 =
      gui.GuiOutcome.exec (Stmt.deleteRow "teams" "team_id" id) ∧
    (gui.TeamsFrame.delete (some id) true (gui.TeamsFrame.delete (some id) true rows).2).1 =
      gui.GuiOutcome.exec (Stmt.deleteRow "teams" "team_id" id) ∧
    (gui.TeamsFrame.delete (some id) true (gui.TeamsFrame.delete (some id) true rows).2).2 =
      (gui.TeamsFrame.delete (some id) true rows).2 := by
  have idem : sqlDeleteWhereId (sqlDeleteWhereId rows id) id = sqlDeleteWhereId rows id :=
    aux_filter_idem _ rows
  refine ⟨rfl, rfl, idem, rfl, idem, rfl, idem, rfl, idem, rfl, idem, rfl, idem, rfl, idem,
    ?_, ?_, ?_⟩
  · simp [gui.TeamsFrame.delete]
  · simp [gui.TeamsFrame.delete]
  · simp [gui.TeamsFrame.delete, idem]

/-- C8: `app.db.get_conn` makes each call all-or-nothing: when the body
fails, the connection is rolled back before the exception propagates and
the visible store state is unchanged with zero commits; when it succeeds,
the pending work is committed exactly once. -/
theorem spec_c8 {σ ε α : Type} (db : σ) (work : σ → Except ε (σ × α)) :
    get_conn db (runStatements work) =
      match work db with
      | Except.ok (p, a) => (Except.ok a, p, 1)
      | Except.error e => (Except.error e, db, 0) := by
  unfold get_conn runStatements pgConnect PGConn.commit PGConn.rollback PGConn.close
  cases h : work db with
  | ok pa => cases pa with | mk p a => simp [h]
  | error e => simp [h]

/-- C6 counterexample: the tournament-results list queries of the two front
ends request different orders: on two rows with start dates 1 and 2 the CLI
clause (`t.start_date NULLS LAST`) puts day 1 first while the GUI clause
(`t.start_date DESC NULLS LAST`) puts day 2 first. -/
theorem spec_c6_counterexample :
    cli.list_results_order ≠ gui.ResultsFrame.refresh_order ∧
    orderCompare cli.list_results_order [some 1, some 1] [some 2, some 1] = Ordering.lt ∧
    orderCompare gui.ResultsFrame.refresh_order [some 1, some 1] [some 2, some 1] = Ordering.gt :=
  ⟨by decide, by decide, by decide⟩

/-- C6 amended: the per-entity sort orders agree between the two front ends
for teams, players, tournaments and matches, but not for tournament
results: the CLI lists results by tournament start date ascending (nulls
last) then placement, the GUI by start date descending (nulls last) then
placement, so rows with distinct start dates are requested in opposite
orders. -/
theorem spec_c6_amended :
    cli.list_teams_order = gui.TeamsFrame.refresh_order ∧
    cli.list_players_order = gui.PlayersFrame.refresh_order ∧
    cli.list_tournaments_order = gui.TournamentsFrame.refresh_order ∧
    cli.list_matches_order = gui.MatchesFrame.refresh_order ∧
    cli.list_results_order ≠ gui.ResultsFrame.refresh_order ∧
    (∀ d1 d2 p1 p2 : Int, d1 < d2 →
      orderCompare cli.list_results_order [some d1, some p1] [some d2, some p2] = Ordering.lt ∧
      orderCompare gui.ResultsFrame.refresh_order [some d1, some p1] [some d2, some p2] = Ordering.gt) := by
  refine ⟨rfl, rfl, rfl, rfl, by decide, ?_⟩
  intro d1 d2 p1 p2 h
  have hne : d1 ≠ d2 := ne_of_lt h
  constructor <;>
    simp [cli.list_results_order, gui.ResultsFrame.refresh_order, orderCompare,
      SortKey.cmpCell, intCmp, h, Ordering.swap]

/-- Witness for C6 amended at start dates 1 < 2. -/
theorem spec_c6_amended_witness :
    orderCompare cli.list_results_order [some 1, some 3] [some 2, some 4] = Ordering.lt ∧
    orderCompare gui.ResultsFrame.refresh_order [some 1, some 3] [some 2, some 4] = Ordering.gt :=
  spec_c6_amended.2.2.2.2.2 1 2 3 4 (by decide)

/-- Helper: scanning for the " - " separator passes over a digits-only
block unchanged and stops at the separator that follows it. -/
theorem aux_beforeSep_digits (xs ys : List Char) (h : ∀ c ∈ xs, c.isDigit) :
    listBeforeSep [' ', '-', ' '] (xs ++ ' ' :: '-' :: ' ' :: ys) = xs := by
  induction xs with
  | nil => simp [listBeforeSep, List.isPrefixOf]
  | cons c t ih =>
    have hc : c.isDigit := h c (by simp)
    have hne : c ≠ ' ' := by
      intro e
      rw [e] at hc
      exact absurd hc (by decide)
    have hbeq : (' ' == c) = false := by
      simp [hne.symm]
    simp only [List.cons_append, listBeforeSep, List.isPrefixOf, hbeq, Bool.false_and,
      Bool.false_eq_true, if_false]
    exact congrArg (c :: ·) (ih (fun x hx => h x (by simp [hx])))

/-- C3 counterexample: the bare input "42" is neither blank nor of the
"<id> - <label>" form (it contains no " - " separator), yet the referential
selector accepts it and returns 42 instead of failing with
InvalidSelection. -/
theorem spec_c3_counterexample :
    gui.parse_combo_id (some "42") = Except.ok (some 42) ∧
    pyContains "42" " - " = false ∧
    "42" ≠ "" :=
  ⟨rfl, by decide, by decide⟩

/-- C3 amended: blank or `None` input maps to no selection; a well-formed
"<id> - <label>" input maps to the id; and for any other string the
selector returns the integer parse of the text before the first " - "
separator (the whole string when the separator is absent) when that parse
succeeds — so a bare integer like "42" is accepted — and fails with
`ValueError("Pick a value from the dropdown")` only when that parse
fails. -/
theorem spec_c3_amended :
    gui.parse_combo_id none = Except.ok none ∧
    gui.parse_combo_id (some "") = Except.ok none ∧
    (∀ (idStr label : String) (n : Int), (∀ c ∈ idStr.data, c.isDigit) →
      pyInt? idStr = some n →
      gui.parse_combo_id (some (idStr ++ " - " ++ label)) = Except.ok (some n)) ∧
    (∀ (s : String) (n : Int), s ≠ "" → pyInt? (pySplitBefore " - " s) = some n →
      gui.parse_combo_id (some s) = Except.ok (some n)) ∧
    (∀ s : String, s ≠ "" → pyInt? (pySplitBefore " - " s) = none →
      gui.parse_combo_id (some s) = Except.error "Pick a value from the dropdown") := by
  refine ⟨rfl, rfl, ?_, ?_, ?_⟩
  · intro idStr label n hdig hparse
    have hdata : (idStr ++ " - " ++ label).data = idStr.data ++ (' ' :: '-' :: ' ' :: label.data) := by
      rw [String.data_append, String.data_append]
      simp [List.append_assoc]
    have hne : (idStr ++ " - " ++ label) ≠ "" := by
      intro e
      have hd := congrArg String.data e
      rw [hdata] at hd
      simp at hd
    have hsplit : pySplitBefore " - " (idStr ++ " - " ++ label) = idStr := by
      unfold pySplitBefore
      rw [hdata]
      have hsep : (" - " : String).data = [' ', '-', ' '] := rfl
      rw [hsep, aux_beforeSep_digits idStr.data label.data hdig]
    simp only [gui.parse_combo_id]
    rw [if_neg hne, hsplit, hparse]
  · intro s n hne hp
    simp only [gui.parse_combo_id]
    rw [if_neg hne, hp]
  · intro s hne hp
    simp only [gui.parse_combo_id]
    rw [if_neg hne, hp]

/-- Witness for C3 amended: a well-formed "7 - Alpha" yields 7, and free
text yields the InvalidSelection error. -/
theorem spec_c3_amended_witness :
    gui.parse_combo_id (some ("7" ++ " - " ++ "Alpha")) = Except.ok (some 7) ∧
    gui.parse_combo_id (some "free text") = Except.error "Pick a value from the dropdown" :=
  ⟨spec_c3_amended.2.2.1 "7" "Alpha" 7 (by decide) (by decide),
   spec_c3_amended.2.2.2.2 "free text" (by decide) (by decide)⟩

/-- Helper: with `allow_blank = False`, `prompt_str` never yields a blank
value: whatever it accepts is a non-empty stripped string. -/
theorem aux_prompt_str_false (inputs : List String) :
    ∀ (rest : List String) (v : Option String),
      cli.prompt_str false inputs = some (v, rest) → ∃ s, v = some s ∧ s ≠ "" := by
  induction inputs with
  | nil =>
    intro rest v h
    simp [cli.prompt_str] at h
  | cons a t ih =>
    intro rest v h
    by_cases hb : pyStrip a ≠ ""
    · simp only [cli.prompt_str, hb, if_pos] at h
      rw [if_pos hb] at h
      simp only [Option.some.injEq, Prod.mk.injEq] at h
      exact ⟨pyStrip a, h.1.symm, hb⟩
    · simp only [cli.prompt_str] at h
      rw [if_neg hb] at h
      simp only [Bool.false_eq_true, if_false] at h
      exact ih rest v h

/-- Helper: with `allow_blank = False`, `prompt_int` never yields `None`. -/
theorem aux_prompt_int_false (inputs : List String) :
    ∀ (rest : List String) (v : Option Int),
      cli.prompt_int false inputs = some (v, rest) → ∃ n, v = some n := by
  induction inputs with
  | nil =>
    intro rest v h
    simp [cli.prompt_int] at h
  | cons a t ih =>
    intro rest v h
    simp only [cli.prompt_int] at h
    rw [if_neg (by simp)] at h
    cases hp : pyInt? (pyStrip a) with
    | some n =>
      rw [hp] at h
      simp only [Option.some.injEq, Prod.mk.injEq] at h
      exact ⟨n, h.1.symm⟩
    | none =>
      rw [hp] at h
      exact ih rest v h

/-- C7: a create with a required field blank is rejected locally with the
frame's required-field error and no INSERT: each GUI frame checks its
required fields before contacting the store, and the CLI's
`prompt_str`/`prompt_int` with `allow_blank = False` can never hand a blank
required value to an INSERT (shown end to end for `create_team`). -/
theorem spec_c7 :
    (∀ name region founded : String, pyStrip name = "" ∨ pyStrip region = "" →
      gui.TeamsFrame.create name region founded =
        gui.GuiOutcome.err "team name and region are required") ∧
    (∀ name country role team : String, pyStrip name = "" →
      gui.PlayersFrame.create name country role team =
        gui.GuiOutcome.err "player name is required") ∧
    (∀ name org prize start endd loc : String, pyStrip name = "" →
      gui.TournamentsFrame.create name org prize start endd loc =
        gui.GuiOutcome.err "tournament name is required") ∧
    (∀ tournament team1 team2 winner mapv dateS bestOfS t1S t2S : String,
      ∀ a b c : Option Int,
      gui.parse_combo_id (some tournament) = Except.ok a →
      gui.parse_combo_id (some team1) = Except.ok b →
      gui.parse_combo_id (some team2) = Except.ok c →
      (a = none ∨ b = none ∨ c = none) →
      gui.MatchesFrame.create tournament team1 team2 winner mapv dateS bestOfS t1S t2S =
        gui.GuiOutcome.err "tournament and both teams are required") ∧
    (∀ tournament team placement earnings : String,
      pyStrip tournament = "" ∨ pyStrip team = "" ∨ pyStrip placement = "" →
      gui.ResultsFrame.create tournament team placement earnings =
        gui.GuiOutcome.err "tournament, team, placement are required") ∧
    (∀ (inputs rest : List String) (v : Option String),
      cli.prompt_str false inputs = some (v, rest) → ∃ s, v = some s ∧ s ≠ "") ∧
    (∀ (inputs rest : List String) (v : Option Int),
      cli.prompt_int false inputs = some (v, rest) → ∃ n, v = some n) ∧
    (∀ (inputs : List String) (stmt : Stmt), cli.create_team inputs = some stmt →
      ∃ (n r : String) (fy : Value),
        stmt = Stmt.insertRow "teams"
          [("team_name", Value.vstr n), ("region", Value.vstr r), ("founded_year", fy)] ∧
        n ≠ "" ∧ r ≠ "") := by
  refine ⟨?_, ?_, ?_, ?_, ?_, fun inputs => aux_prompt_str_false inputs,
    fun inputs => aux_prompt_int_false inputs, ?_⟩
  · intro name region founded h
    simp only [gui.TeamsFrame.create]
    rw [if_pos h]
  · intro name country role team h
    simp only [gui.PlayersFrame.create]
    rw [if_pos h]
  · intro name org prize start endd loc h
    simp only [gui.TournamentsFrame.create]
    rw [if_pos h]
  · intro tournament team1 team2 winner mapv dateS bestOfS t1S t2S a b c ha hb hc hnone
    simp only [gui.MatchesFrame.create, ha, hb, hc]
    rw [if_pos hnone]
  · intro tournament team placement earnings h
    simp only [gui.ResultsFrame.create]
    rw [if_pos h]
  · intro inputs stmt h
    unfold cli.create_team at h
    cases e1 : cli.prompt_str false inputs with
    | none => rw [e1] at h; exact absurd h (by simp)
    | some p1 =>
      obtain ⟨name, r1⟩ := p1
      rw [e1] at h
      dsimp only [] at h
      cases e2 : cli.prompt_str false r1 with
      | none => rw [e2] at h; exact absurd h (by simp)
      | some p2 =>
        obtain ⟨region, r2⟩ := p2
        rw [e2] at h
        dsimp only [] at h
        cases e3 : cli.prompt_int true r2 with
        | none => rw [e3] at h; exact absurd h (by simp)
        | some p3 =>
          obtain ⟨fy, r3⟩ := p3
          rw [e3] at h
          dsimp only [] at h
          simp only [Option.some.injEq] at h
          obtain ⟨ns, hns, hnne⟩ := aux_prompt_str_false inputs r1 name e1
          obtain ⟨rs, hrs, hrne⟩ := aux_prompt_str_false r1 r2 region e2
          refine ⟨ns, rs, optInt fy, ?_, hnne, hrne⟩
          rw [← h, hns, hrs]
          rfl

/-- Witness for C7: concrete blank required fields are rejected by each GUI
frame, and a CLI team-create session whose first entry is blank still
inserts a non-blank name and region (the blank entry is re-prompted). -/
theorem spec_c7_witness :
    gui.TeamsFrame.create "" "EU" "" = gui.GuiOutcome.err "team name and region are required" ∧
    gui.PlayersFrame.create " " "SE" "AWP" "" = gui.GuiOutcome.err "player name is required" ∧
    gui.TournamentsFrame.create "" "Org" "" "" "" "" = gui.GuiOutcome.err "tournament name is required" ∧
    gui.MatchesFrame.create "" "1 - Alpha" "2 - Beta" "" "" "" "" "" "" =
      gui.GuiOutcome.err "tournament and both teams are required" ∧
    gui.ResultsFrame.create "1 - Cup" "" "3" "" = gui.GuiOutcome.err "tournament, team, placement are required" ∧
    (∃ s, (some "Alpha" : Option String) = some s ∧ s ≠ "") ∧
    (∃ n, (some (7 : Int) : Option Int) = some n) ∧
    (∃ (n r : String) (fy : Value),
      Stmt.insertRow "teams"
        [("team_name", Value.vstr "Alpha"), ("region", Value.vstr "EU"), ("founded_year", Value.vnull)] =
        Stmt.insertRow "teams"
          [("team_name", Value.vstr n), ("region", Value.vstr r), ("founded_year", fy)] ∧
      n ≠ "" ∧ r ≠ "") :=
  ⟨spec_c7.1 "" "EU" "" (by decide),
   spec_c7.2.1 " " "SE" "AWP" "" (by decide),
   spec_c7.2.2.1 "" "Org" "" "" "" "" (by decide),
   spec_c7.2.2.2.1 "" "1 - Alpha" "2 - Beta" "" "" "" "" "" "" none (some 1) (some 2)
     rfl rfl rfl (Or.inl rfl),
   spec_c7.2.2.2.2.1 "1 - Cup" "" "3" "" (by decide),
   spec_c7.2.2.2.2.2.1 ["", "Alpha"] [] (some "Alpha") (by decide),
   spec_c7.2.2.2.2.2.2.1 ["x", "7"] [] (some 7) (by decide),
   spec_c7.2.2.2.2.2.2.2 ["", "Alpha", "EU", ""] _ (by decide)⟩

/-- Helper: the column names of a filtered key/optional-value list are the
keys whose value is present. -/
theorem aux_filterMap_fst {β : Type} (l : List (String × Option β)) :
    (l.filterMap (fun kv => kv.2.map (fun v => (kv.1, v)))).map Prod.fst =
      l.filterMap (fun kv => kv.2.map (fun _ => kv.1)) := by
  induction l with
  | nil => rfl
  | cons a t ih =>
    obtain ⟨k, v⟩ := a
    cases v <;> simp [List.filterMap_cons, ih]

/-- C2 counterexample: in the GUI Teams frame, updating team 1 with only
the name filled in ("NewName"; region and founded year left blank) issues
an UPDATE that also sets the `region` and `founded_year` columns, filling
them from the previously read selected row — a full-row replace, not a
targeted update of only the caller-named column. -/
theorem spec_c2_counterexample :
    gui.TeamsFrame.update (some (1, ⟨"Old", "EU", "2020"⟩)) "NewName" "" "" =
      gui.GuiOutcome.exec (Stmt.updateRow "teams"
        [("team_name", Value.vstr "NewName"), ("region", Value.vstr "EU"),
         ("founded_year", Value.vstr "2020")] "team_id" 1) ∧
    (gui.TeamsFrame.update (some (1, ⟨"Old", "EU", "2020"⟩)) "NewName" "" "").setCols ≠
      ["team_name"] ∧
    "region" ∈ (gui.TeamsFrame.update (some (1, ⟨"Old", "EU", "2020"⟩)) "NewName" "" "").setCols :=
  ⟨by decide, by decide, by decide⟩

/-- C2 amended: non-empty updates in the CLI (every entity) and in the GUI
Matches frame write exactly the caller-named columns. The GUI Teams,
Players and Tournaments frames instead issue a full-row UPDATE that always
sets every mutable column: the Teams frame fills blank fields from the
previously selected row's displayed values, while the Players and
Tournaments frames fall back to the selected row only for a blank name and
overwrite the other blank columns with NULL (country, role, team_id,
organizer, start_date, end_date, location) or Decimal("0")
(prize_pool). -/
theorem spec_c2_amended :
    (∀ (id : Int) (nn nr : Option String) (ny : Option Int),
      (cli.update_team id nn nr ny).setCols = providedTeamCols nn nr ny) ∧
    (∀ (id : Int) (nn nc nr : Option String) (nt : Option Int),
      (cli.update_player id nn nc nr nt).setCols = providedPlayerCols nn nc nr nt) ∧
    (∀ (id : Int) (nn norg : Option String) (np : Option (Int × Nat)) (ns nend nl : Option String),
      (cli.update_tournament id nn norg np ns nend nl).setCols =
        providedTournamentCols nn norg np ns nend nl) ∧
    (∀ (id : Int) (nn : Option String),
      (cli.update_map id nn).setCols = providedMapCols nn) ∧
    (∀ (id : Int) (nt ntm npl : Option Int) (ne : Option (Int × Nat)),
      (cli.update_result id nt ntm npl ne).setCols = providedResultCols nt ntm npl ne) ∧
    (∀ (id : Int) (t t1 t2 w m : Option Int) (d : Option String) (bo s1 s2 : Option Int),
      (cli.update_match id t t1 t2 w m d bo s1 s2).setCols =
        providedMatchCols t t1 t2 w m d bo s1 s2) ∧
    (∀ (mid : Int) (a b c d e f g h i : String) (pairs : List (String × Option Value)),
      gui.MatchesFrame.updatesDict a b c d e f g h i = Except.ok pairs →
      (gui.MatchesFrame.update (some mid) a b c d e f g h i).setCols =
        pairs.filterMap (fun kv => kv.2.map (fun _ => kv.1))) ∧
    (∀ (sel : Option (Int × gui.TeamRowView)) (name region founded : String)
        (sets : List (String × Value)) (k : String) (i : Int),
      gui.TeamsFrame.update sel name region founded =
        gui.GuiOutcome.exec (Stmt.updateRow "teams" sets k i) →
      sets.map Prod.fst = ["team_name", "region", "founded_year"]) ∧
    (∀ (sel : Option (Int × gui.PlayerRowView)) (name country role team : String)
        (sets : List (String × Value)) (k : String) (i : Int),
      gui.PlayersFrame.update sel name country role team =
        gui.GuiOutcome.exec (Stmt.updateRow "players" sets k i) →
      sets.map Prod.fst = ["player_name", "country", "role", "team_id"]) ∧
    (∀ (sel : Option (Int × gui.TourRowView)) (name org prize start endd loc : String)
        (sets : List (String × Value)) (k : String) (i : Int),
      gui.TournamentsFrame.update sel name org prize start endd loc =
        gui.GuiOutcome.exec (Stmt.updateRow "tournaments" sets k i) →
      sets.map Prod.fst = ["name", "organizer", "prize_pool", "start_date", "end_date", "location"]) ∧
    (∀ (tid : Int) (cur : gui.TeamRowView) (name : String),
      pyStrip name ≠ "" → cur.region ≠ "" →
      gui.TeamsFrame.update (some (tid, cur)) name "" "" =
        gui.GuiOutcome.exec (Stmt.updateRow "teams"
          [("team_name", Value.vstr (pyStrip name)), ("region", Value.vstr cur.region),
           ("founded_year", Value.vstr cur.founded)] "team_id" tid)) ∧
    (∀ (pid : Int) (cur : gui.PlayerRowView) (name : String), pyStrip name ≠ "" →
      gui.PlayersFrame.update (some (pid, cur)) name "" "" "" =
        gui.GuiOutcome.exec (Stmt.updateRow "players"
          [("player_name", Value.vstr (pyStrip name)), ("country", Value.vnull),
           ("role", Value.vnull), ("team_id", Value.vnull)] "player_id" pid)) ∧
    (∀ (tid : Int) (cur : gui.TourRowView) (name : String), pyStrip name ≠ "" →
      gui.TournamentsFrame.update (some (tid, cur)) name "" "" "" "" "" =
        gui.GuiOutcome.exec (Stmt.updateRow "tournaments"
          [("name", Value.vstr (pyStrip name)), ("organizer", Value.vnull),
           ("prize_pool", Value.vdec 0 0), ("start_date", Value.vnull),
           ("end_date", Value.vnull), ("location", Value.vnull)] "tournament_id" tid)) := by
  have h0 : pyStrip "" = "" := rfl
  refine ⟨?_, ?_, ?_, ?_, ?_, ?_, ?_, ?_, ?_, ?_, ?_, ?_, ?_⟩
  · intro id nn nr ny
    cases nn <;> cases nr <;> cases ny <;>
      simp [cli.update_team, cli.CliUpdateResult.setCols, providedTeamCols]
  · intro id nn nc nr nt
    cases nn <;> cases nc <;> cases nr <;> cases nt <;>
      simp [cli.update_player, cli.CliUpdateResult.setCols, providedPlayerCols]
  · intro id nn norg np ns nend nl
    cases nn <;> cases norg <;> cases np <;> cases ns <;> cases nend <;> cases nl <;>
      simp [cli.update_tournament, cli.CliUpdateResult.setCols, providedTournamentCols]
  · intro id nn
    cases nn <;>
      simp [cli.update_map, cli.CliUpdateResult.setCols, providedMapCols]
  · intro id nt ntm npl ne
    cases nt <;> cases ntm <;> cases npl <;> cases ne <;>
      simp [cli.update_result, cli.CliUpdateResult.setCols, providedResultCols]
  · intro id t t1 t2 w m d bo s1 s2
    unfold cli.update_match providedMatchCols
    by_cases hemp : ((cli.matchFields t t1 t2 w m d bo s1 s2).filterMap
        (fun kv => kv.2.map (fun v => (kv.1, v)))).isEmpty
    · rw [if_pos hemp]
      have he : (cli.matchFields t t1 t2 w m d bo s1 s2).filterMap
          (fun kv => kv.2.map (fun v => (kv.1, v))) = [] := by
        rwa [List.isEmpty_iff] at hemp
      rw [← aux_filterMap_fst, he]
      rfl
    · rw [if_neg hemp]
      exact aux_filterMap_fst _
  · intro mid a b c d e f g h i pairs hok
    unfold gui.MatchesFrame.update
    rw [hok]
    dsimp only []
    by_cases hemp : (pairs.filterMap (fun kv => kv.2.map (fun v => (kv.1, v)))).isEmpty
    · rw [if_pos hemp]
      have he : pairs.filterMap (fun kv => kv.2.map (fun v => (kv.1, v))) = [] := by
        rwa [List.isEmpty_iff] at hemp
      rw [← aux_filterMap_fst, he]
      rfl
    · rw [if_neg hemp]
      exact aux_filterMap_fst _
  · intro sel name region founded sets k i h
    cases sel with
    | none => simp [gui.TeamsFrame.update] at h
    | some p =>
      obtain ⟨tid, cur⟩ := p
      simp only [gui.TeamsFrame.update] at h
      repeat' split at h
      all_goals first
        | (simp only [gui.GuiOutcome.exec.injEq, Stmt.updateRow.injEq, true_and] at h
           rcases h with ⟨h1, h2, h3⟩
           rw [← h1]
           rfl)
        | simp at h
  · intro sel name country role team sets k i h
    cases sel with
    | none => simp [gui.PlayersFrame.update] at h
    | some p =>
      obtain ⟨pid, cur⟩ := p
      simp only [gui.PlayersFrame.update] at h
      repeat' split at h
      all_goals first
        | (simp only [gui.GuiOutcome.exec.injEq, Stmt.updateRow.injEq, true_and] at h
           rcases h with ⟨h1, h2, h3⟩
           rw [← h1]
           rfl)
        | simp at h
  · intro sel name org prize start endd loc sets k i h
    cases sel with
    | none => simp [gui.TournamentsFrame.update] at h
    | some p =>
      obtain ⟨tid, cur⟩ := p
      simp only [gui.TournamentsFrame.update] at h
      repeat' split at h
      all_goals first
        | (simp only [gui.GuiOutcome.exec.injEq, Stmt.updateRow.injEq, true_and] at h
           rcases h with ⟨h1, h2, h3⟩
           rw [← h1]
           rfl)
        | simp at h
  · intro tid cur name hname hreg
    simp [gui.TeamsFrame.update, h0, hname, hreg]
  · intro pid cur name hname
    simp [gui.PlayersFrame.update, gui.parse_combo_id, pyOrNone, optInt, h0, hname]
  · intro tid cur name hname
    simp [gui.TournamentsFrame.update, gui.parse_decimal, gui.parse_date, pyDecOr0,
      pyOrNone, optDate, h0, hname]

/-- Witness for C2 amended: the GUI full-row conjuncts applied at concrete
exec-producing inputs, the GUI Matches conjunct applied at an all-blank
form (no columns named, no columns written), and the fill-behavior
conjuncts applied at a name-only update of each full-row frame. -/
theorem spec_c2_amended_witness :
    ([("team_name", Value.vstr "NewName"), ("region", Value.vstr "EU"),
      ("founded_year", Value.vstr "2020")].map Prod.fst) =
      ["team_name", "region", "founded_year"] ∧
    ([("player_name", Value.vstr "NewNeo"), ("country", Value.vnull),
      ("role", Value.vnull), ("team_id", Value.vnull)].map Prod.fst) =
      ["player_name", "country", "role", "team_id"] ∧
    ([("name", Value.vstr "NewCup"), ("organizer", Value.vnull),
      ("prize_pool", Value.vdec 0 0), ("start_date", Value.vnull),
      ("end_date", Value.vnull), ("location", Value.vnull)].map Prod.fst) =
      ["name", "organizer", "prize_pool", "start_date", "end_date", "location"] ∧
    (gui.MatchesFrame.update (some 1) "" "" "" "" "" "" "" "" "").setCols =
      ([("tournament_id", (none : Option Value)), ("team1_id", none), ("team2_id", none),
        ("winner_team_id", none), ("map_id", none), ("match_date", none),
        ("best_of", none), ("team1_score", none), ("team2_score", none)].filterMap
          (fun kv => kv.2.map (fun _ => kv.1))) ∧
    gui.TeamsFrame.update (some (1, ⟨"Old", "EU", "2020"⟩)) "NewName" "" "" =
      gui.GuiOutcome.exec (Stmt.updateRow "teams"
        [("team_name", Value.vstr (pyStrip "NewName")), ("region", Value.vstr "EU"),
         ("founded_year", Value.vstr "2020")] "team_id" 1) ∧
    gui.PlayersFrame.update (some (2, ⟨"Neo", "SE", "AWP", ""⟩)) "NewNeo" "" "" "" =
      gui.GuiOutcome.exec (Stmt.updateRow "players"
        [("player_name", Value.vstr (pyStrip "NewNeo")), ("country", Value.vnull),
         ("role", Value.vnull), ("team_id", Value.vnull)] "player_id" 2) ∧
    gui.TournamentsFrame.update (some (3, ⟨"Major"⟩)) "NewCup" "" "" "" "" "" =
      gui.GuiOutcome.exec (Stmt.updateRow "tournaments"
        [("name", Value.vstr (pyStrip "NewCup")), ("organizer", Value.vnull),
         ("prize_pool", Value.vdec 0 0), ("start_date", Value.vnull),
         ("end_date", Value.vnull), ("location", Value.vnull)] "tournament_id" 3) :=
  ⟨spec_c2_amended.2.2.2.2.2.2.2.1 (some (1, ⟨"Old", "EU", "2020"⟩)) "NewName" "" "" _
     "team_id" 1 (by decide),
   spec_c2_amended.2.2.2.2.2.2.2.2.1 (some (2, ⟨"Neo", "SE", "AWP", ""⟩)) "NewNeo" "" "" "" _
     "player_id" 2 (by decide),
   spec_c2_amended.2.2.2.2.2.2.2.2.2.1 (some (3, ⟨"Major"⟩)) "NewCup" "" "" "" "" "" _
     "tournament_id" 3 (by decide),
   spec_c2_amended.2.2.2.2.2.2.1 1 "" "" "" "" "" "" "" "" "" _ rfl,
   spec_c2_amended.2.2.2.2.2.2.2.2.2.2.1 1 ⟨"Old", "EU", "2020"⟩ "NewName"
     (by decide) (by decide),
   spec_c2_amended.2.2.2.2.2.2.2.2.2.2.2.1 2 ⟨"Neo", "SE", "AWP", ""⟩ "NewNeo" (by decide),
   spec_c2_amended.2.2.2.2.2.2.2.2.2.2.2.2 3 ⟨"Major"⟩ "NewCup" (by decide)⟩
